import Mathlib

/-!
A shallow embedding of the core of `astra_backend.py` (the ASTRA social tutor
backend): the learner-state store (`CASMState` and `update_casm_from_messages`),
the two agent strategies (`pta_step`, `cga_step`) and the turn router
(`handle_turn`), together with proofs of the behavioural properties the
design document states about them.

Python-specific conventions of the embedding:
* dynamically typed values produced by `json.loads` are modelled by the
  inductive `PyVal`;
* Python dicts are association lists with unique keys in insertion order;
* code that can raise returns `Except PyErr`; a propagating exception is an
  `.error`;
* the external text-generation capability (`LLMClient.generate`) and the
  standard-library JSON decoder (`json.loads`) are both taken as parameters,
  since neither is implemented by the repository's core.
-/

/-- Python values as produced by `json.loads`: JSON null, booleans, numbers
(modelled as integers; no claim depends on fractional values), strings,
arrays and objects. -/
inductive PyVal where
  | null : PyVal
  | bool : Bool → PyVal
  | num : Int → PyVal
  | str : String → PyVal
  | arr : List PyVal → PyVal
  | obj : List (String × PyVal) → PyVal

/-- Python exception classes that the embedded code can raise or catch. -/
inductive PyErr where
  | jsonDecodeError : PyErr
  | attributeError : PyErr
  | typeError : PyErr
  | zeroDivisionError : PyErr
  | genFailure : PyErr
  deriving DecidableEq

/-- Lookup in a Python dict modelled as an association list with unique keys:
`dictGet d k` is `some v` when `d[k] = v`, modelling `d.get(k)`. -/
def dictGet {α : Type} : List (String × α) → String → Option α
  | [], _ => none
  | (k1, v1) :: rest, k => if k1 = k then some v1 else dictGet rest k

/-- Assignment `d[k] = v` on a Python dict modelled as an association list:
replaces the (unique) binding of `k` in place, else appends a new binding at
the end, preserving insertion order. -/
def dictSet {α : Type} : List (String × α) → String → α → List (String × α)
  | [], k, v => [(k, v)]
  | (k1, v1) :: rest, k, v =>
    if k1 = k then (k, v) :: rest else (k1, v1) :: dictSet rest k v

/-- Characters kept by Python `str.strip()`: whitespace is removed from both
ends. -/
def pyStripChars (cs : List Char) : List Char :=
  ((cs.dropWhile Char.isWhitespace).reverse.dropWhile Char.isWhitespace).reverse

/-- Python `s.strip()`. -/
def pyStrip (s : String) : String := String.mk (pyStripChars s.data)

/-- Python `s.upper()` (ASCII case folding, which covers every tag the code
compares against). -/
def pyUpper (s : String) : String := String.mk (s.data.map Char.toUpper)

/-- Python `s.lower()`. -/
def pyLower (s : String) : String := String.mk (s.data.map Char.toLower)

/-- Python `s.startswith(pre)`. -/
def pyStartsWith (s pre : String) : Bool := pre.data.isPrefixOf s.data

/-- Substring containment on character lists. -/
def charsContain (sub : List Char) : List Char → Bool
  | [] => sub.isEmpty
  | c :: rest => sub.isPrefixOf (c :: rest) || charsContain sub rest

/-- Python `sub in s` for strings. -/
def pyContains (s sub : String) : Bool := charsContain sub.data s.data

/-- Helper for Python `str.splitlines`: walks the characters accumulating the
current line in reverse; a final nonempty fragment yields a last line, and
`\r\n` counts as a single line break. -/
def pySplitlinesAux : List Char → List Char → List String
  | [], acc => if acc.isEmpty then [] else [String.mk acc.reverse]
  | '\r' :: '\n' :: rest, acc => String.mk acc.reverse :: pySplitlinesAux rest []
  | '\r' :: rest, acc => String.mk acc.reverse :: pySplitlinesAux rest []
  | '\n' :: rest, acc => String.mk acc.reverse :: pySplitlinesAux rest []
  | c :: rest, acc => pySplitlinesAux rest (c :: acc)

/-- Python `s.splitlines()`. -/
def pySplitlines (s : String) : List String := pySplitlinesAux s.data []

/-- Remainder of a character list after its first colon, if any. -/
def charsAfterColon : List Char → Option (List Char)
  | [] => none
  | c :: rest => if c = ':' then some rest else charsAfterColon rest

/-- Python `line.split(":", 1)[1]`: the text after the first colon.  The
embedded parse loops only evaluate this on lines satisfying the
`ACTION_TAG:` guard, which forces a colon to be present, so the
missing-colon case (an IndexError in Python) is unreachable there; it is
totalised with the empty string. -/
def afterFirstColon (s : String) : String :=
  String.mk ((charsAfterColon s.data).getD [])

/-- Python truthiness of a decoded value (`if x:`). -/
def pyTruthy : PyVal → Bool
  | .null => false
  | .bool b => b
  | .num n => n != 0
  | .str s => !s.isEmpty
  | .arr xs => !xs.isEmpty
  | .obj kvs => !kvs.isEmpty

/-- Extracts the underlying strings of a decoded list when every element is a
string; `none` otherwise. -/
def strOfPyList : List PyVal → Option (List String)
  | [] => some []
  | .str s :: rest => (strOfPyList rest).map (fun ss => s :: ss)
  | _ :: _ => none

/-- Python `sep.join(x)`: joins an iterable of strings; iterating a string
yields its one-character strings and iterating a dict yields its keys; any
other value (or a list with a non-string element) raises TypeError. -/
def pyJoin (sep : String) (x : PyVal) : Except PyErr String :=
  match x with
  | .str s => .ok (String.intercalate sep (s.data.map (fun c => String.mk [c])))
  | .arr xs =>
    match strOfPyList xs with
    | some ss => .ok (String.intercalate sep ss)
    | none => .error .typeError
  | .obj kvs => .ok (String.intercalate sep (kvs.map (fun kv => kv.1)))
  | _ => .error .typeError

mutual

/-- Python `str(x)` of a decoded value, as used by f-string interpolation. -/
def pyStr : PyVal → String
  | .null => "None"
  | .bool true => "True"
  | .bool false => "False"
  | .num n => toString n
  | .str s => s
  | .arr xs => "[" ++ pyReprList xs ++ "]"
  | .obj kvs => "\x7b" ++ pyReprObj kvs ++ "\x7d"

/-- Python `repr(x)` of a decoded value (container elements are shown with
`repr`, strings quoted; escaping subtleties inside quoted strings are not
modelled, no claim depends on them). -/
def pyRepr : PyVal → String
  | .null => "None"
  | .bool true => "True"
  | .bool false => "False"
  | .num n => toString n
  | .str s => "\x27" ++ s ++ "\x27"
  | .arr xs => "[" ++ pyReprList xs ++ "]"
  | .obj kvs => "\x7b" ++ pyReprObj kvs ++ "\x7d"

/-- Comma-separated `repr` of list elements. -/
def pyReprList : List PyVal → String
  | [] => ""
  | [x] => pyRepr x
  | x :: rest => pyRepr x ++ ", " ++ pyReprList rest

/-- Comma-separated `repr` of dict entries. -/
def pyReprObj : List (String × PyVal) → String
  | [] => ""
  | [(k, v)] => "\x27" ++ k ++ "\x27: " ++ pyRepr v
  | (k, v) :: rest => "\x27" ++ k ++ "\x27: " ++ pyRepr v ++ ", " ++ pyReprObj rest

end

/-- Python `a % b` on integers: floor-based modulus, raising
ZeroDivisionError on a zero divisor. -/
def pyMod (a b : Int) : Except PyErr Int :=
  if b = 0 then .error .zeroDivisionError else .ok (Int.fmod a b)

/-- Sender roles: the `Role = Literal["student", "pta", "cga"]` type of the
source. -/
inductive Role where
  | student : Role
  | pta : Role
  | cga : Role
  deriving DecidableEq

/-- Textual form of a role, matching the Python string literals. -/
def roleStr : Role → String
  | .student => "student"
  | .pta => "pta"
  | .cga => "cga"

/-- Chat messages (the `Message` dataclass).  The timestamp is an opaque
numeric value; none of the core logic reads it. -/
structure Message where
  sender_id : String
  sender_role : Role
  content : String
  timestamp : Int

/-- Roles an agent response can carry (`Literal["pta", "cga"]`). -/
inductive AgentRole where
  | pta : AgentRole
  | cga : AgentRole
  deriving DecidableEq

/-- Structured agent output (the `AgentResponse` dataclass). -/
structure AgentResponse where
  content : String
  agent_role : AgentRole
  action_tag : String

/-- Per-student learner profile (the `CASMProfile` dataclass).  The Python
class annotates the fields with `Literal` string types but enforces nothing,
so after an update a field can hold any value produced by `json.loads`; the
fields are therefore modelled as `PyVal`. -/
structure CASMProfile where
  knowledge_level : PyVal
  misconceptions : PyVal
  affect : PyVal
  talkativeness : PyVal

/-- The default profile `CASMProfile()`:
knowledge medium, no misconceptions, neutral affect, medium talkativeness. -/
def defaultCASMProfile : CASMProfile :=
  ⟨.str "medium", .arr [], .str "neutral", .str "medium"⟩

/-- The learner-state store (the `CASMState` dataclass).  The semantic and
episodic mappings are reserved extension points never read or written by the
core logic (semantic float values are modelled as integers). -/
structure CASMState where
  semantic : List (String × List (String × Int))
  episodic : List (String × List String)
  social : List (String × CASMProfile)

/-- Abstract LLM client: a single `generate` operation that may fail with any
Python error. -/
structure LLMClient where
  generate : String → String → Except PyErr String

/-- Window of the last five utterances of `student_id` in `recent_messages`,
joined by newlines (the `last_text` local of `update_casm_from_messages`). -/
def casmLastText (student_id : String) (recent_messages : List Message) : String :=
  let utterances :=
    (recent_messages.filter (fun m => m.sender_id == student_id)).map
      (fun m => m.content)
  String.intercalate "\n" (utterances.drop (utterances.length - 5))

/-- System prompt of the learner-state inference call. -/
def casmSystemPrompt : String :=
  "You are analysing a student\x27s recent messages in a programming task.\n" ++
  "Infer a simple learner state with fields:\n" ++
  "- knowledge_level: one of [\x27low\x27, \x27medium\x27, \x27high\x27]\n" ++
  "- affect: one of [\x27neutral\x27, \x27confused\x27, \x27frustrated\x27, \x27engaged\x27]\n" ++
  "- talkativeness: one of [\x27low\x27, \x27medium\x27, \x27high\x27]\n" ++
  "- misconceptions: list of short phrases describing misconceptions you detect.\n" ++
  "Respond ONLY as valid JSON with these keys."

/-- User prompt of the learner-state inference call; `last_text or
'[no recent messages]'` substitutes the placeholder for an empty window. -/
def casmUserPrompt (last_text : String) : String :=
  "Recent messages from this student:\n" ++
  (if last_text = "" then "[no recent messages]" else last_text)

/-- The `try` block of `update_casm_from_messages`: call the client and decode
its output.  `jsonLoads` is the model of the standard-library `json.loads`. -/
def inferLearnerState (client : LLMClient) (jsonLoads : String → Except PyErr PyVal)
    (student_id : String) (recent_messages : List Message) : Except PyErr PyVal :=
  match client.generate casmSystemPrompt (casmUserPrompt (casmLastText student_id recent_messages)) with
  | .error e => .error e
  | .ok raw => jsonLoads raw

/-- The learner-state update (`update_casm_from_messages`): any error raised
inside the `try` block yields the state unchanged; on a decoded object the
stored profile of `student_id` is replaced wholesale, each field defaulting
to its previous value.  The calls `data.get(...)` sit outside the `try`
block in the source, so a decoded value that is not a dict raises an
uncaught AttributeError. -/
def update_casm_from_messages (client : LLMClient)
    (jsonLoads : String → Except PyErr PyVal) (casm : CASMState)
    (student_id : String) (recent_messages : List Message) :
    Except PyErr CASMState :=
  match inferLearnerState client jsonLoads student_id recent_messages with
  | .error _ => .ok casm
  | .ok data =>
    match data with
    | .obj kvs =>
      let profile := (dictGet casm.social student_id).getD defaultCASMProfile
      let knowledge_level := (dictGet kvs "knowledge_level").getD profile.knowledge_level
      let affect := (dictGet kvs "affect").getD profile.affect
      let talk := (dictGet kvs "talkativeness").getD profile.talkativeness
      let misconceptions := (dictGet kvs "misconceptions").getD profile.misconceptions
      .ok ⟨casm.semantic, casm.episodic,
        dictSet casm.social student_id ⟨knowledge_level, misconceptions, affect, talk⟩⟩
    | _ => .error .attributeError

/-- One-student state summary (`summarise_casm_for_student`); joining the
misconception list can raise TypeError when a profile holds non-string
entries. -/
def summarise_casm_for_student (casm : CASMState) (student_id : String) :
    Except PyErr String :=
  let profile := (dictGet casm.social student_id).getD defaultCASMProfile
  match (if pyTruthy profile.misconceptions then pyJoin "; " profile.misconceptions
         else .ok "none noted yet") with
  | .error e => .error e
  | .ok misconceptions =>
    .ok ("Knowledge level: " ++ pyStr profile.knowledge_level ++ ". " ++
      "Affect: " ++ pyStr profile.affect ++ ". " ++
      "Talkativeness: " ++ pyStr profile.talkativeness ++ ". " ++
      "Key misconceptions: " ++ misconceptions ++ ".")

/-- Loop body of `summarise_group_state` for one participant id. -/
def groupLine (casm : CASMState) (sid : String) : Except PyErr String :=
  let profile := (dictGet casm.social sid).getD defaultCASMProfile
  match (if pyTruthy profile.misconceptions then pyJoin "; " profile.misconceptions
         else .ok "none") with
  | .error e => .error e
  | .ok misconceptions =>
    .ok (sid ++ ": knowledge=" ++ pyStr profile.knowledge_level ++
      ", affect=" ++ pyStr profile.affect ++
      ", talkativeness=" ++ pyStr profile.talkativeness ++
      ", misconceptions=" ++ misconceptions)

/-- The `for sid in participant_ids` loop of `summarise_group_state`: builds
one line per participant in the order given, stopping at the first raised
error. -/
def groupLines (casm : CASMState) : List String → Except PyErr (List String)
  | [] => .ok []
  | sid :: rest =>
    match groupLine casm sid with
    | .error e => .error e
    | .ok line =>
      match groupLines casm rest with
      | .error e => .error e
      | .ok lines => .ok (line :: lines)

/-- Group state summary (`summarise_group_state`): one line per participant
id, in the exact order given, joined by newlines. -/
def summarise_group_state (casm : CASMState) (participant_ids : List String) :
    Except PyErr String :=
  match groupLines casm participant_ids with
  | .error e => .error e
  | .ok lines => .ok (String.intercalate "\n" lines)

/-- The tag-extraction loop shared verbatim by `pta_step` and `cga_step` in
the source: folds over the lines, remembering the tag of the latest
`ACTION_TAG:` line (starting from the strategy's default) and accumulating
every other line in order. -/
def tagScan : List String → String → List String → String × List String
  | [], tag, acc => (tag, acc)
  | line :: rest, tag, acc =>
    if pyStartsWith (pyUpper (pyStrip line)) "ACTION_TAG:" then
      tagScan rest (pyUpper (pyStrip (afterFirstColon line))) acc
    else
      tagScan rest tag (acc ++ [line])

/-- System prompt of the tutor strategy. -/
def ptaSystemPrompt : String :=
  "You are a patient programming tutor helping students learn.\n" ++
  "Use Socratic questioning and hints before giving full solutions.\n" ++
  "Adapt your response to the learner state I give you.\n" ++
  "Classify your intervention as one of: QUESTION, HINT, EXPLANATION, ENCOURAGEMENT.\n" ++
  "At the end of your reply, add a line starting with \x27ACTION_TAG:\x27 followed by the tag."

/-- User prompt of the tutor strategy. -/
def ptaUserPrompt (task_context casm_summary msg_content : String) : String :=
  "Task context:\n" ++ task_context ++ "\n\n" ++
  "Learner state:\n" ++ casm_summary ++ "\n\n" ++
  "Student\x27s latest message:\n" ++ msg_content ++ "\n\n" ++
  "Now respond to the student, following the guidelines."

/-- The tutor strategy (`pta_step`): summarises the sender's learner state,
calls the client once, and parses the raw text into content plus the latest
`ACTION_TAG:` line (default tag `UNKNOWN`). -/
def pta_step (client : LLMClient) (student_msg : Message) (casm : CASMState)
    (task_context : String) : Except PyErr AgentResponse :=
  match summarise_casm_for_student casm student_msg.sender_id with
  | .error e => .error e
  | .ok casm_summary =>
    match client.generate ptaSystemPrompt
        (ptaUserPrompt task_context casm_summary student_msg.content) with
    | .error e => .error e
    | .ok raw =>
      let scanned := tagScan (pySplitlines (pyStrip raw)) "UNKNOWN" []
      let content := pyStrip (String.intercalate "\n" scanned.2)
      .ok ⟨content, .pta, scanned.1⟩

/-- Rendering of one history entry in the facilitator's conversation window. -/
def convoLine (m : Message) : String :=
  m.sender_id ++ " (" ++ roleStr m.sender_role ++ "): " ++ m.content

/-- System prompt of the facilitator strategy. -/
def cgaSystemPrompt : String :=
  "You are a facilitator helping a small group of programming students work together.\n" ++
  "Your job is to improve collaboration, ensure everyone participates, and help them " ++
  "resolve confusion without taking over the task.\n" ++
  "You may invite quieter students, prompt for summaries, or suggest turn-taking.\n" ++
  "Classify your intervention as one of: INVITE_QUIET_MEMBER, SUMMARISE, " ++
  "MEDIATE_CONFLICT, ENCOURAGE_COLLAB, NONE.\n" ++
  "At the end of your reply, add a line starting with \x27ACTION_TAG:\x27 and the tag."

/-- User prompt of the facilitator strategy. -/
def cgaUserPrompt (convo group_state : String) : String :=
  "Here is the recent group conversation:\n" ++ convo ++ "\n\n" ++
  "Here is the current group state:\n" ++ group_state ++ "\n\n" ++
  "If an intervention would help, write a short message to the group.\n" ++
  "If no intervention is needed, reply \x27No intervention needed.\x27 with ACTION_TAG:NONE."

/-- The facilitator strategy (`cga_step`): renders the last 15 history
entries and the group state, calls the client once, and parses the raw text
with the same loop as `pta_step` but default tag `NONE`. -/
def cga_step (client : LLMClient) (history : List Message) (casm : CASMState)
    (participant_ids : List String) : Except PyErr AgentResponse :=
  match summarise_group_state casm participant_ids with
  | .error e => .error e
  | .ok group_state =>
    match client.generate cgaSystemPrompt
        (cgaUserPrompt
          (String.intercalate "\n" ((history.drop (history.length - 15)).map convoLine))
          group_state) with
    | .error e => .error e
    | .ok raw =>
      let scanned := tagScan (pySplitlines (pyStrip raw)) "NONE" []
      let content := pyStrip (String.intercalate "\n" scanned.2)
      .ok ⟨content, .cga, scanned.1⟩

/-- Count of student-authored messages of a history, as the Python `int` used
by the router (`total_student_turns`). -/
def studentTurnCount (history : List Message) : Int :=
  ((history.filter (fun m => m.sender_role == Role.student)).length : Int)

/-- The turn router (`handle_turn`).  `cga_frequency` defaults to 5 in the
source; the embedding passes it explicitly.  Routing order: explicit
`@`-and-`tutor` addressing forces the tutor; else a nonzero student count
that is a multiple of `cga_frequency` invokes the facilitator, whose `NONE`
tag suppresses the surfaced response; else the tutor responds. -/
def handle_turn (client : LLMClient) (jsonLoads : String → Except PyErr PyVal)
    (new_message : Message) (history : List Message) (casm : CASMState)
    (participant_ids : List String) (task_context : String)
    (cga_frequency : Int) :
    Except PyErr (CASMState × List Message × Option AgentResponse) :=
  match update_casm_from_messages client jsonLoads casm new_message.sender_id
      (history ++ [new_message]) with
  | .error e => .error e
  | .ok casm2 =>
    if pyContains new_message.content "@" && pyContains (pyLower new_message.content) "tutor" then
      match pta_step client new_message casm2 task_context with
      | .error e => .error e
      | .ok response => .ok (casm2, history ++ [new_message], some response)
    else
      match pyMod (studentTurnCount (history ++ [new_message])) cga_frequency with
      | .error e => .error e
      | .ok r =>
        if r = 0 ∧ 0 < studentTurnCount (history ++ [new_message]) then
          match cga_step client (history ++ [new_message]) casm2 participant_ids with
          | .error e => .error e
          | .ok response =>
            if response.action_tag = "NONE" then .ok (casm2, history ++ [new_message], none)
            else .ok (casm2, history ++ [new_message], some response)
        else
          match pta_step client new_message casm2 task_context with
          | .error e => .error e
          | .ok response => .ok (casm2, history ++ [new_message], some response)

/-- Specification-side predicate: a line whose case-insensitive trimmed form
starts with `ACTION_TAG:`. -/
def specIsTagLine (line : String) : Bool :=
  pyStartsWith (pyUpper (pyStrip line)) "ACTION_TAG:"

/-- Specification-side tag of one tag line: the remainder after the first
colon, trimmed and uppercased. -/
def specTagOf (line : String) : String := pyUpper (pyStrip (afterFirstColon line))

/-- Specification-side parse of raw agent output into (tag, content),
following the spec's words: any line whose case-insensitive trimmed form
starts with `ACTION_TAG:` yields the tag regardless of its position (the
latest such line when several occur), the default tag stands in when no
such line exists, and all other lines, joined by newlines and trimmed,
become the content. -/
def specParse (defaultTag raw : String) : String × String :=
  ((match ((pySplitlines (pyStrip raw)).filter specIsTagLine).getLast? with
    | none => defaultTag
    | some line => specTagOf line),
   pyStrip (String.intercalate "\n"
     ((pySplitlines (pyStrip raw)).filter (fun l => !(specIsTagLine l)))))

/-- Student message used by the disabled-facilitator counterexample. -/
def disabledTurnMsg : Message := ⟨"student_A", Role.student, "hi", 0⟩

/-- Client stub used by the disabled-facilitator counterexample. -/
def disabledTurnClient : LLMClient :=
  ⟨fun _ _ => .ok "Team, please summarise your progress.\nACTION_TAG: SUMMARISE"⟩

/-! ## Basic lemmas about the dict model -/

theorem dictGet_dictSet_self {α : Type} (d : List (String × α)) (k : String) (v : α) :
    dictGet (dictSet d k v) k = some v := by
  induction d with
  | nil => simp [dictSet, dictGet]
  | cons kv rest ih =>
    obtain ⟨k1, v1⟩ := kv
    by_cases h : k1 = k
    · simp [dictSet, dictGet, h]
    · simp [dictSet, dictGet, h, ih]

theorem dictGet_dictSet_ne {α : Type} (d : List (String × α)) (k : String) (v : α)
    (k2 : String) (h : k2 ≠ k) : dictGet (dictSet d k v) k2 = dictGet d k2 := by
  induction d with
  | nil =>
    simp only [dictSet, dictGet]
    exact if_neg (fun he => h he.symm)
  | cons kv rest ih =>
    obtain ⟨k1, v1⟩ := kv
    by_cases h1 : k1 = k
    · subst h1
      simp only [dictSet, if_pos rfl, dictGet]
      rw [if_neg (fun he => h he.symm), if_neg (fun he => h he.symm)]
    · simp [dictSet, dictGet, h1, ih]

/-! ## Claims about the learner-state update -/

/-- C9: `update_casm_from_messages` modifies at most the per-student profile
entry of the given student: whenever it returns a state, the semantic
mapping, the episodic mapping, and the stored profile of every other student
are unchanged — on the no-op failure path and on the successful path alike. -/
theorem update_casm_frame (client : LLMClient)
    (jsonLoads : String → Except PyErr PyVal) (casm : CASMState)
    (student_id : String) (recent_messages : List Message) (casm2 : CASMState)
    (h : update_casm_from_messages client jsonLoads casm student_id recent_messages =
      .ok casm2) :
    casm2.semantic = casm.semantic ∧ casm2.episodic = casm.episodic ∧
      ∀ sid, sid ≠ student_id → dictGet casm2.social sid = dictGet casm.social sid := by
  unfold update_casm_from_messages at h
  cases hinf : inferLearnerState client jsonLoads student_id recent_messages with
  | error e =>
    rw [hinf] at h
    simp only [Except.ok.injEq] at h
    subst h
    exact ⟨rfl, rfl, fun _ _ => rfl⟩
  | ok data =>
    rw [hinf] at h
    cases data with
    | obj kvs =>
      simp only [Except.ok.injEq] at h
      subst h
      exact ⟨rfl, rfl, fun sid hsid => dictGet_dictSet_ne _ _ _ _ hsid⟩
    | null => exact Except.noConfusion h
    | bool b => exact Except.noConfusion h
    | num n => exact Except.noConfusion h
    | str s => exact Except.noConfusion h
    | arr xs => exact Except.noConfusion h

/-- Witness for C9 on a successful update: only the profile of `s1` changes,
`s2` and the other mappings are untouched. -/
theorem update_casm_frame_witness :
    (⟨[], [("s1", ["e"])],
        [("s1", ⟨PyVal.str "medium", PyVal.arr [], PyVal.str "confused", PyVal.str "medium"⟩),
         ("s2", ⟨PyVal.str "high", PyVal.arr [], PyVal.str "engaged", PyVal.str "low"⟩)]⟩ :
          CASMState).semantic =
      (⟨[], [("s1", ["e"])],
        [("s1", defaultCASMProfile),
         ("s2", ⟨PyVal.str "high", PyVal.arr [], PyVal.str "engaged", PyVal.str "low"⟩)]⟩ :
          CASMState).semantic ∧
    (⟨[], [("s1", ["e"])],
        [("s1", ⟨PyVal.str "medium", PyVal.arr [], PyVal.str "confused", PyVal.str "medium"⟩),
         ("s2", ⟨PyVal.str "high", PyVal.arr [], PyVal.str "engaged", PyVal.str "low"⟩)]⟩ :
          CASMState).episodic =
      (⟨[], [("s1", ["e"])],
        [("s1", defaultCASMProfile),
         ("s2", ⟨PyVal.str "high", PyVal.arr [], PyVal.str "engaged", PyVal.str "low"⟩)]⟩ :
          CASMState).episodic ∧
    ∀ sid, sid ≠ "s1" →
      dictGet (⟨[], [("s1", ["e"])],
        [("s1", ⟨PyVal.str "medium", PyVal.arr [], PyVal.str "confused", PyVal.str "medium"⟩),
         ("s2", ⟨PyVal.str "high", PyVal.arr [], PyVal.str "engaged", PyVal.str "low"⟩)]⟩ :
          CASMState).social sid =
      dictGet (⟨[], [("s1", ["e"])],
        [("s1", defaultCASMProfile),
         ("s2", ⟨PyVal.str "high", PyVal.arr [], PyVal.str "engaged", PyVal.str "low"⟩)]⟩ :
          CASMState).social sid :=
  update_casm_frame ⟨fun _ _ => .ok "ok"⟩
    (fun _ => .ok (.obj [("affect", .str "confused")]))
    ⟨[], [("s1", ["e"])],
      [("s1", defaultCASMProfile),
       ("s2", ⟨PyVal.str "high", PyVal.arr [], PyVal.str "engaged", PyVal.str "low"⟩)]⟩
    "s1" [] _ rfl

/-- C5: on a successful parse yielding an object, the update builds a fresh
whole-record replacement profile for the student; every field whose key is
absent from the parsed object carries the previous profile's value forward
(the documented default profile enters only when the student had no stored
profile at all). -/
theorem update_casm_merge (client : LLMClient)
    (jsonLoads : String → Except PyErr PyVal) (casm : CASMState)
    (student_id : String) (recent_messages : List Message)
    (kvs : List (String × PyVal))
    (hinf : inferLearnerState client jsonLoads student_id recent_messages =
      .ok (.obj kvs)) :
    ∃ p : CASMProfile,
      update_casm_from_messages client jsonLoads casm student_id recent_messages =
        .ok ⟨casm.semantic, casm.episodic, dictSet casm.social student_id p⟩ ∧
      ((dictGet kvs "knowledge_level" = none →
          p.knowledge_level =
            ((dictGet casm.social student_id).getD defaultCASMProfile).knowledge_level) ∧
       (dictGet kvs "affect" = none →
          p.affect = ((dictGet casm.social student_id).getD defaultCASMProfile).affect) ∧
       (dictGet kvs "talkativeness" = none →
          p.talkativeness =
            ((dictGet casm.social student_id).getD defaultCASMProfile).talkativeness) ∧
       (dictGet kvs "misconceptions" = none →
          p.misconceptions =
            ((dictGet casm.social student_id).getD defaultCASMProfile).misconceptions)) := by
  refine ⟨⟨(dictGet kvs "knowledge_level").getD
      ((dictGet casm.social student_id).getD defaultCASMProfile).knowledge_level,
    (dictGet kvs "misconceptions").getD
      ((dictGet casm.social student_id).getD defaultCASMProfile).misconceptions,
    (dictGet kvs "affect").getD
      ((dictGet casm.social student_id).getD defaultCASMProfile).affect,
    (dictGet kvs "talkativeness").getD
      ((dictGet casm.social student_id).getD defaultCASMProfile).talkativeness⟩,
    ?_, ?_, ?_, ?_, ?_⟩
  · unfold update_casm_from_messages
    rw [hinf]
  · intro hk
    simp [hk]
  · intro hk
    simp [hk]
  · intro hk
    simp [hk]
  · intro hk
    simp [hk]

/-- Witness for C5: the worked example of the design document.  Starting from
profile (knowledge high, affect engaged, talkativeness low, misconceptions
["off-by-one"]) and an inference result supplying only affect "confused",
the stored profile becomes (high, confused, low, ["off-by-one"]). -/
theorem update_casm_merge_witness :
    update_casm_from_messages ⟨fun _ _ => .ok "raw"⟩
        (fun _ => .ok (.obj [("affect", .str "confused")]))
        ⟨[], [], [("stu", ⟨PyVal.str "high", PyVal.arr [PyVal.str "off-by-one"],
          PyVal.str "engaged", PyVal.str "low"⟩)]⟩ "stu" [] =
      .ok ⟨[], [], [("stu", ⟨PyVal.str "high", PyVal.arr [PyVal.str "off-by-one"],
        PyVal.str "confused", PyVal.str "low"⟩)]⟩ ∧
    ∃ p : CASMProfile,
      update_casm_from_messages ⟨fun _ _ => .ok "raw"⟩
          (fun _ => .ok (.obj [("affect", .str "confused")]))
          ⟨[], [], [("stu", ⟨PyVal.str "high", PyVal.arr [PyVal.str "off-by-one"],
            PyVal.str "engaged", PyVal.str "low"⟩)]⟩ "stu" [] =
        .ok ⟨[], [],
          dictSet [("stu", ⟨PyVal.str "high", PyVal.arr [PyVal.str "off-by-one"],
            PyVal.str "engaged", PyVal.str "low"⟩)] "stu" p⟩ ∧
      ((dictGet [("affect", PyVal.str "confused")] "knowledge_level" = none →
          p.knowledge_level = PyVal.str "high") ∧
       (dictGet [("affect", PyVal.str "confused")] "affect" = none →
          p.affect = PyVal.str "engaged") ∧
       (dictGet [("affect", PyVal.str "confused")] "talkativeness" = none →
          p.talkativeness = PyVal.str "low") ∧
       (dictGet [("affect", PyVal.str "confused")] "misconceptions" = none →
          p.misconceptions = PyVal.arr [PyVal.str "off-by-one"])) :=
  ⟨rfl,
    update_casm_merge ⟨fun _ _ => .ok "raw"⟩
      (fun _ => .ok (.obj [("affect", .str "confused")]))
      ⟨[], [], [("stu", ⟨PyVal.str "high", PyVal.arr [PyVal.str "off-by-one"],
        PyVal.str "engaged", PyVal.str "low"⟩)]⟩ "stu" []
      [("affect", PyVal.str "confused")] rfl⟩

/-- C10: on a successful parse yielding an object, supplied values are stored
verbatim, with no validation against the data model's enumerations: a key
present in the parsed object sets the corresponding profile field to exactly
that decoded value, whatever it is. -/
theorem update_casm_no_validation (client : LLMClient)
    (jsonLoads : String → Except PyErr PyVal) (casm : CASMState)
    (student_id : String) (recent_messages : List Message)
    (kvs : List (String × PyVal))
    (hinf : inferLearnerState client jsonLoads student_id recent_messages =
      .ok (.obj kvs)) :
    ∃ p : CASMProfile,
      update_casm_from_messages client jsonLoads casm student_id recent_messages =
        .ok ⟨casm.semantic, casm.episodic, dictSet casm.social student_id p⟩ ∧
      ((∀ v, dictGet kvs "knowledge_level" = some v → p.knowledge_level = v) ∧
       (∀ v, dictGet kvs "affect" = some v → p.affect = v) ∧
       (∀ v, dictGet kvs "talkativeness" = some v → p.talkativeness = v) ∧
       (∀ v, dictGet kvs "misconceptions" = some v → p.misconceptions = v)) := by
  refine ⟨⟨(dictGet kvs "knowledge_level").getD
      ((dictGet casm.social student_id).getD defaultCASMProfile).knowledge_level,
    (dictGet kvs "misconceptions").getD
      ((dictGet casm.social student_id).getD defaultCASMProfile).misconceptions,
    (dictGet kvs "affect").getD
      ((dictGet casm.social student_id).getD defaultCASMProfile).affect,
    (dictGet kvs "talkativeness").getD
      ((dictGet casm.social student_id).getD defaultCASMProfile).talkativeness⟩,
    ?_, ?_, ?_, ?_, ?_⟩
  · unfold update_casm_from_messages
    rw [hinf]
  · intro v hv
    simp [hv]
  · intro v hv
    simp [hv]
  · intro v hv
    simp [hv]
  · intro v hv
    simp [hv]

/-- Witness for C10: values far outside the documented enumerations — a
knowledge level "galactic", a numeric affect 3, and a number 7 in place of
the misconception list — are stored verbatim. -/
theorem update_casm_no_validation_witness :
    update_casm_from_messages ⟨fun _ _ => .ok "raw"⟩
        (fun _ => .ok (.obj [("knowledge_level", .str "galactic"), ("affect", .num 3),
          ("misconceptions", .num 7)]))
        ⟨[], [], []⟩ "stu" [] =
      .ok ⟨[], [], [("stu", ⟨PyVal.str "galactic", PyVal.num 7, PyVal.num 3,
        PyVal.str "medium"⟩)]⟩ ∧
    ∃ p : CASMProfile,
      update_casm_from_messages ⟨fun _ _ => .ok "raw"⟩
          (fun _ => .ok (.obj [("knowledge_level", .str "galactic"), ("affect", .num 3),
            ("misconceptions", .num 7)]))
          ⟨[], [], []⟩ "stu" [] =
        .ok ⟨[], [], dictSet [] "stu" p⟩ ∧
      ((∀ v, dictGet [("knowledge_level", PyVal.str "galactic"), ("affect", PyVal.num 3),
          ("misconceptions", PyVal.num 7)] "knowledge_level" = some v →
            p.knowledge_level = v) ∧
       (∀ v, dictGet [("knowledge_level", PyVal.str "galactic"), ("affect", PyVal.num 3),
          ("misconceptions", PyVal.num 7)] "affect" = some v → p.affect = v) ∧
       (∀ v, dictGet [("knowledge_level", PyVal.str "galactic"), ("affect", PyVal.num 3),
          ("misconceptions", PyVal.num 7)] "talkativeness" = some v →
            p.talkativeness = v) ∧
       (∀ v, dictGet [("knowledge_level", PyVal.str "galactic"), ("affect", PyVal.num 3),
          ("misconceptions", PyVal.num 7)] "misconceptions" = some v →
            p.misconceptions = v)) :=
  ⟨rfl,
    update_casm_no_validation ⟨fun _ _ => .ok "raw"⟩
      (fun _ => .ok (.obj [("knowledge_level", .str "galactic"), ("affect", .num 3),
        ("misconceptions", .num 7)]))
      ⟨[], [], []⟩ "stu" []
      [("knowledge_level", PyVal.str "galactic"), ("affect", PyVal.num 3),
        ("misconceptions", PyVal.num 7)] rfl⟩

/-- C1 (failing evaluation): when the generation call returns text that is
valid JSON but not a JSON object — here the array "[1, 2]" — the decode
inside the `try` block succeeds, and the subsequent `data.get` call, which
sits outside the `try` block, raises an AttributeError that propagates to
the caller instead of the documented silent no-op. -/
theorem update_casm_nonobject_raises :
    update_casm_from_messages ⟨fun _ _ => .ok "[1, 2]"⟩
        (fun s => if s = "[1, 2]" then .ok (.arr [.num 1, .num 2])
                  else .error .jsonDecodeError)
        ⟨[], [], [("student_A", defaultCASMProfile)]⟩ "student_A" [] =
      .error .attributeError := rfl

/-! ## Claims about the turn router -/

/-- C7: whenever `handle_turn` returns, the returned history is exactly the
caller's history with `new_message` appended at the end — no prior entry is
removed, reordered or modified.  The source builds it with list
concatenation (`history + [new_message]`), which constructs a new sequence
instead of mutating the caller's. -/
theorem handle_turn_appends (client : LLMClient)
    (jsonLoads : String → Except PyErr PyVal) (new_message : Message)
    (history : List Message) (casm : CASMState) (participant_ids : List String)
    (task_context : String) (cga_frequency : Int) (casm2 : CASMState)
    (history2 : List Message) (response : Option AgentResponse)
    (h : handle_turn client jsonLoads new_message history casm participant_ids
      task_context cga_frequency = .ok (casm2, history2, response)) :
    history2 = history ++ [new_message] := by
  unfold handle_turn at h
  repeat' split at h
  all_goals first
    | exact Except.noConfusion h
    | (simp only [Except.ok.injEq, Prod.mk.injEq] at h; exact h.2.1.symm)

/-- Witness for C7: a concrete full turn whose returned history is the old
history plus the new message. -/
theorem handle_turn_appends_witness :
    ([⟨"student_B", Role.student, "what now", 1⟩, ⟨"student_A", Role.student, "hello", 2⟩] :
      List Message) =
      [⟨"student_B", Role.student, "what now", 1⟩] ++ [⟨"student_A", Role.student, "hello", 2⟩] :=
  handle_turn_appends ⟨fun _ _ => .ok "Hi there.\nACTION_TAG: HINT"⟩
    (fun _ => .error .jsonDecodeError) ⟨"student_A", Role.student, "hello", 2⟩
    [⟨"student_B", Role.student, "what now", 1⟩] ⟨[], [], []⟩ [] "ctx" 5 ⟨[], [], []⟩
    _ (some ⟨"Hi there.", AgentRole.pta, "HINT"⟩) rfl

/-- Responses produced by the tutor strategy always carry the fixed role
`pta`. -/
theorem pta_step_role (client : LLMClient) (m : Message) (casm : CASMState)
    (ctx : String) (r : AgentResponse) (h : pta_step client m casm ctx = .ok r) :
    r.agent_role = .pta := by
  unfold pta_step at h
  split at h
  · exact Except.noConfusion h
  · split at h
    · exact Except.noConfusion h
    · simp only [Except.ok.injEq] at h
      rw [← h]

/-- Responses produced by the facilitator strategy always carry the fixed
role `cga`. -/
theorem cga_step_role (client : LLMClient) (history : List Message)
    (casm : CASMState) (pids : List String) (r : AgentResponse)
    (h : cga_step client history casm pids = .ok r) : r.agent_role = .cga := by
  unfold cga_step at h
  split at h
  · exact Except.noConfusion h
  · split at h
    · exact Except.noConfusion h
    · simp only [Except.ok.injEq] at h
      rw [← h]

/-- C4: a message containing the literal `@` and, case-insensitively, the
substring `tutor`, is routed to the tutor strategy whatever the value of
`cga_frequency` and of the student-turn count — explicit addressing has
priority over the periodic rule. -/
theorem handle_turn_addressed (client : LLMClient)
    (jsonLoads : String → Except PyErr PyVal) (new_message : Message)
    (history : List Message) (casm : CASMState) (participant_ids : List String)
    (task_context : String) (cga_frequency : Int) (casm2 : CASMState)
    (r : AgentResponse)
    (hat : pyContains new_message.content "@" = true)
    (htut : pyContains (pyLower new_message.content) "tutor" = true)
    (hupd : update_casm_from_messages client jsonLoads casm new_message.sender_id
      (history ++ [new_message]) = .ok casm2)
    (hpta : pta_step client new_message casm2 task_context = .ok r) :
    handle_turn client jsonLoads new_message history casm participant_ids
        task_context cga_frequency =
      .ok (casm2, history ++ [new_message], some r) ∧ r.agent_role = .pta := by
  constructor
  · simp only [handle_turn, hupd, hat, htut, Bool.and_self, if_true, hpta]
  · exact pta_step_role _ _ _ _ _ hpta

/-- Witness for C4, the design document's scenario: student turn number 4
with a configured period of 4 would be due for the facilitator, yet the
message "@Tutor please help" still routes to the tutor. -/
theorem handle_turn_addressed_witness :
    handle_turn ⟨fun _ _ => .ok "Sure.\nACTION_TAG: HINT"⟩
        (fun _ => .error .jsonDecodeError)
        ⟨"student_A", Role.student, "@Tutor please help", 3⟩
        [⟨"student_A", Role.student, "a", 0⟩, ⟨"student_B", Role.student, "b", 1⟩,
         ⟨"student_A", Role.student, "c", 2⟩]
        ⟨[], [], []⟩ ["student_A", "student_B"] "ctx" 4 =
      .ok (⟨[], [], []⟩,
        [⟨"student_A", Role.student, "a", 0⟩, ⟨"student_B", Role.student, "b", 1⟩,
         ⟨"student_A", Role.student, "c", 2⟩] ++
          [⟨"student_A", Role.student, "@Tutor please help", 3⟩],
        some ⟨"Sure.", AgentRole.pta, "HINT"⟩) ∧
    (⟨"Sure.", AgentRole.pta, "HINT"⟩ : AgentResponse).agent_role = .pta :=
  handle_turn_addressed ⟨fun _ _ => .ok "Sure.\nACTION_TAG: HINT"⟩
    (fun _ => .error .jsonDecodeError)
    ⟨"student_A", Role.student, "@Tutor please help", 3⟩
    [⟨"student_A", Role.student, "a", 0⟩, ⟨"student_B", Role.student, "b", 1⟩,
     ⟨"student_A", Role.student, "c", 2⟩]
    ⟨[], [], []⟩ ["student_A", "student_B"] "ctx" 4 ⟨[], [], []⟩
    ⟨"Sure.", AgentRole.pta, "HINT"⟩ rfl rfl rfl rfl

/-- C3: with a defined positive intervention period, a non-addressed turn
invokes the facilitator exactly when the student count n of the extended
history is a nonzero multiple of the period (n = 0 never does, as the
nonzero guard shows); a facilitator tag of `NONE` makes the surfaced
response null even though the facilitator call happened, while any other
non-addressed turn invokes the tutor. -/
theorem handle_turn_periodic (client : LLMClient)
    (jsonLoads : String → Except PyErr PyVal) (new_message : Message)
    (history : List Message) (casm : CASMState) (participant_ids : List String)
    (task_context : String) (cga_frequency : Int) (casm2 : CASMState)
    (hfreq : 0 < cga_frequency)
    (hnot : (pyContains new_message.content "@" &&
      pyContains (pyLower new_message.content) "tutor") = false)
    (hupd : update_casm_from_messages client jsonLoads casm new_message.sender_id
      (history ++ [new_message]) = .ok casm2) :
    ((Int.fmod (studentTurnCount (history ++ [new_message])) cga_frequency = 0 ∧
        0 < studentTurnCount (history ++ [new_message])) →
      ∀ r, cga_step client (history ++ [new_message]) casm2 participant_ids = .ok r →
        r.agent_role = .cga ∧
        handle_turn client jsonLoads new_message history casm participant_ids
            task_context cga_frequency =
          .ok (casm2, history ++ [new_message],
            if r.action_tag = "NONE" then none else some r)) ∧
    (¬(Int.fmod (studentTurnCount (history ++ [new_message])) cga_frequency = 0 ∧
        0 < studentTurnCount (history ++ [new_message])) →
      ∀ r, pta_step client new_message casm2 task_context = .ok r →
        r.agent_role = .pta ∧
        handle_turn client jsonLoads new_message history casm participant_ids
            task_context cga_frequency =
          .ok (casm2, history ++ [new_message], some r)) := by
  have hmod : pyMod (studentTurnCount (history ++ [new_message])) cga_frequency =
      .ok (Int.fmod (studentTurnCount (history ++ [new_message])) cga_frequency) := by
    unfold pyMod
    rw [if_neg (by omega)]
  constructor
  · rintro ⟨hm, hp⟩ r hcga
    refine ⟨cga_step_role _ _ _ _ _ hcga, ?_⟩
    simp only [handle_turn, hupd, hnot, Bool.false_eq_true, if_false, hmod, hm, hp,
      eq_self_iff_true, true_and, and_true, if_true, hcga]
    by_cases hN : r.action_tag = "NONE"
    · simp [hN]
    · simp [hN]
  · intro hno r hpta
    refine ⟨pta_step_role _ _ _ _ _ hpta, ?_⟩
    simp only [handle_turn, hupd, hnot, Bool.false_eq_true, if_false, hmod, hno,
      if_false, hpta]

/-- Witness for C3, the design document's suppression scenario: period 4,
student turn number 4, no explicit addressing; the facilitator is invoked,
reports tag `NONE`, and the surfaced response is null. -/
theorem handle_turn_periodic_witness :
    (⟨"No intervention needed.", AgentRole.cga, "NONE"⟩ : AgentResponse).agent_role =
      .cga ∧
    handle_turn ⟨fun _ _ => .ok "No intervention needed.\nACTION_TAG:NONE"⟩
        (fun _ => .error .jsonDecodeError)
        ⟨"student_B", Role.student, "i think so", 3⟩
        [⟨"student_A", Role.student, "a", 0⟩, ⟨"student_B", Role.student, "b", 1⟩,
         ⟨"student_A", Role.student, "c", 2⟩]
        ⟨[], [], []⟩ ["student_A", "student_B"] "ctx" 4 =
      .ok (⟨[], [], []⟩,
        [⟨"student_A", Role.student, "a", 0⟩, ⟨"student_B", Role.student, "b", 1⟩,
         ⟨"student_A", Role.student, "c", 2⟩] ++
          [⟨"student_B", Role.student, "i think so", 3⟩],
        if (⟨"No intervention needed.", AgentRole.cga, "NONE"⟩ : AgentResponse).action_tag =
            "NONE" then none
        else some ⟨"No intervention needed.", AgentRole.cga, "NONE"⟩) :=
  (handle_turn_periodic ⟨fun _ _ => .ok "No intervention needed.\nACTION_TAG:NONE"⟩
    (fun _ => .error .jsonDecodeError)
    ⟨"student_B", Role.student, "i think so", 3⟩
    [⟨"student_A", Role.student, "a", 0⟩, ⟨"student_B", Role.student, "b", 1⟩,
     ⟨"student_A", Role.student, "c", 2⟩]
    ⟨[], [], []⟩ ["student_A", "student_B"] "ctx" 4 ⟨[], [], []⟩
    (by decide) rfl rfl).1 ⟨by decide, by decide⟩
    ⟨"No intervention needed.", AgentRole.cga, "NONE"⟩ rfl

/-- C2 (amended): the source has no undefined/disabled intervention period:
`cga_frequency` is always an integer, and the callers turn the facilitator
off by passing the huge period 10^9 (app.py, non-multi-agent conditions).
Under that encoding, any non-addressed turn whose extended history holds
fewer than 10^9 student messages — every realistic session — is routed to
the tutor strategy, and `handle_turn` does not fail given a successful
tutor call. -/
theorem handle_turn_disabled (client : LLMClient)
    (jsonLoads : String → Except PyErr PyVal) (new_message : Message)
    (history : List Message) (casm : CASMState) (participant_ids : List String)
    (task_context : String) (casm2 : CASMState) (r : AgentResponse)
    (hn : studentTurnCount (history ++ [new_message]) < 1000000000)
    (hnot : (pyContains new_message.content "@" &&
      pyContains (pyLower new_message.content) "tutor") = false)
    (hupd : update_casm_from_messages client jsonLoads casm new_message.sender_id
      (history ++ [new_message]) = .ok casm2)
    (hpta : pta_step client new_message casm2 task_context = .ok r) :
    handle_turn client jsonLoads new_message history casm participant_ids
        task_context 1000000000 =
      .ok (casm2, history ++ [new_message], some r) ∧ r.agent_role = .pta := by
  have h0 : (0 : Int) ≤ studentTurnCount (history ++ [new_message]) := by
    unfold studentTurnCount
    exact Int.natCast_nonneg _
  have hfmod : Int.fmod (studentTurnCount (history ++ [new_message])) 1000000000 =
      studentTurnCount (history ++ [new_message]) :=
    Int.fmod_eq_of_lt h0 hn
  have hno : ¬(Int.fmod (studentTurnCount (history ++ [new_message])) 1000000000 = 0 ∧
      0 < studentTurnCount (history ++ [new_message])) := by
    rintro ⟨h1, h2⟩
    rw [hfmod] at h1
    omega
  have hmod : pyMod (studentTurnCount (history ++ [new_message])) 1000000000 =
      .ok (Int.fmod (studentTurnCount (history ++ [new_message])) 1000000000) := by
    unfold pyMod
    rw [if_neg (by norm_num)]
  refine ⟨?_, pta_step_role _ _ _ _ _ hpta⟩
  simp only [handle_turn, hupd, hnot, Bool.false_eq_true, if_false, hmod, hno, hpta]

/-- Witness for the amended C2: with the disabled encoding 10^9 and one
student turn, the tutor responds and nothing fails. -/
theorem handle_turn_disabled_witness :
    handle_turn ⟨fun _ _ => .ok "Okay.\nACTION_TAG: HINT"⟩
        (fun _ => .error .jsonDecodeError)
        ⟨"student_A", Role.student, "hello", 0⟩ [] ⟨[], [], []⟩ [] "ctx" 1000000000 =
      .ok (⟨[], [], []⟩, [] ++ [⟨"student_A", Role.student, "hello", 0⟩],
        some ⟨"Okay.", AgentRole.pta, "HINT"⟩) ∧
    (⟨"Okay.", AgentRole.pta, "HINT"⟩ : AgentResponse).agent_role = .pta :=
  handle_turn_disabled ⟨fun _ _ => .ok "Okay.\nACTION_TAG: HINT"⟩
    (fun _ => .error .jsonDecodeError) ⟨"student_A", Role.student, "hello", 0⟩
    [] ⟨[], [], []⟩ [] "ctx" ⟨[], [], []⟩ ⟨"Okay.", AgentRole.pta, "HINT"⟩
    (by decide) rfl rfl rfl

/-- Filtering keeps a replicated element that satisfies the predicate. -/
theorem filter_replicate_of_pos {α : Type} (p : α → Bool) (a : α) (h : p a = true)
    (k : Nat) : (List.replicate k a).filter p = List.replicate k a := by
  induction k with
  | zero => rfl
  | succ n ih => simp [List.replicate_succ, List.filter_cons, h, ih]

/-- Router helper: a non-addressed turn whose student count is a nonzero
multiple of the period surfaces the facilitator's non-`NONE` response. -/
theorem handle_turn_cga_surfaced (client : LLMClient)
    (jsonLoads : String → Except PyErr PyVal) (new_message : Message)
    (history : List Message) (casm : CASMState) (participant_ids : List String)
    (task_context : String) (cga_frequency : Int) (casm2 : CASMState)
    (r : AgentResponse)
    (hnot : (pyContains new_message.content "@" &&
      pyContains (pyLower new_message.content) "tutor") = false)
    (hupd : update_casm_from_messages client jsonLoads casm new_message.sender_id
      (history ++ [new_message]) = .ok casm2)
    (hmod : pyMod (studentTurnCount (history ++ [new_message])) cga_frequency = .ok 0)
    (hpos : 0 < studentTurnCount (history ++ [new_message]))
    (hcga : cga_step client (history ++ [new_message]) casm2 participant_ids = .ok r)
    (hN : r.action_tag ≠ "NONE") :
    handle_turn client jsonLoads new_message history casm participant_ids
        task_context cga_frequency =
      .ok (casm2, history ++ [new_message], some r) := by
  simp only [handle_turn, hupd, hnot, Bool.false_eq_true, if_false, hmod, hpos,
    eq_self_iff_true, true_and, and_true, if_true, hcga, hN]

/-- C2 (counterexample): with the code's disabled encoding (period 10^9),
the turn on which the extended history holds exactly 10^9 student messages
IS routed to the facilitator — the returned response carries the
facilitator role `cga` — so no value of `n` triggering the branch is not
literally true of the code. -/
theorem handle_turn_disabled_fires :
    handle_turn disabledTurnClient (fun _ => .error .jsonDecodeError) disabledTurnMsg
        (List.replicate 999999999 disabledTurnMsg) ⟨[], [], []⟩ [] "ctx" 1000000000 =
      .ok (⟨[], [], []⟩, List.replicate 999999999 disabledTurnMsg ++ [disabledTurnMsg],
        some ⟨"Team, please summarise your progress.", AgentRole.cga, "SUMMARISE"⟩) := by
  have hupd : update_casm_from_messages disabledTurnClient
      (fun _ => .error .jsonDecodeError) ⟨[], [], []⟩ disabledTurnMsg.sender_id
      (List.replicate 999999999 disabledTurnMsg ++ [disabledTurnMsg]) =
      .ok ⟨[], [], []⟩ := rfl
  have hcga : cga_step disabledTurnClient
      (List.replicate 999999999 disabledTurnMsg ++ [disabledTurnMsg]) ⟨[], [], []⟩ [] =
      .ok ⟨"Team, please summarise your progress.", AgentRole.cga, "SUMMARISE"⟩ := rfl
  have hnot : (pyContains disabledTurnMsg.content "@" &&
      pyContains (pyLower disabledTurnMsg.content) "tutor") = false := rfl
  have hone : (List.filter (fun m => m.sender_role == Role.student) [disabledTurnMsg]) =
      [disabledTurnMsg] := rfl
  have hcount : studentTurnCount
      (List.replicate 999999999 disabledTurnMsg ++ [disabledTurnMsg]) = 1000000000 := by
    unfold studentTurnCount
    rw [List.filter_append, filter_replicate_of_pos _ _ rfl, hone, List.length_append,
      List.length_replicate]
    norm_num
  have hmod : pyMod (studentTurnCount
      (List.replicate 999999999 disabledTurnMsg ++ [disabledTurnMsg])) 1000000000 =
      .ok 0 := by
    unfold pyMod
    rw [if_neg (by norm_num), hcount, Int.fmod_self]
  exact handle_turn_cga_surfaced disabledTurnClient (fun _ => .error .jsonDecodeError)
    disabledTurnMsg (List.replicate 999999999 disabledTurnMsg) ⟨[], [], []⟩ []
    "ctx" 1000000000 ⟨[], [], []⟩
    ⟨"Team, please summarise your progress.", AgentRole.cga, "SUMMARISE"⟩
    hnot hupd hmod (by rw [hcount]; norm_num) hcga (by decide)

/-! ## Claims about agent-output parsing -/

/-- The source's accumulating scan loop agrees with the specification-side
filter-based description. -/
theorem tagScan_eq_spec (lines : List String) (tag : String) (acc : List String) :
    tagScan lines tag acc =
      ((match (lines.filter specIsTagLine).getLast? with
        | none => tag
        | some line => specTagOf line),
       acc ++ lines.filter (fun l => !(specIsTagLine l))) := by
  induction lines generalizing tag acc with
  | nil => simp [tagScan]
  | cons l rest ih =>
    by_cases h : specIsTagLine l = true
    · have hl : pyStartsWith (pyUpper (pyStrip l)) "ACTION_TAG:" = true := h
      rw [tagScan, if_pos hl, ih, List.filter_cons_of_pos h,
        List.filter_cons_of_neg (by simp [h])]
      cases hxs : rest.filter specIsTagLine with
      | nil => rfl
      | cons y ys =>
        rw [List.getLast?_cons_cons]
        cases hz : (y :: ys).getLast? with
        | none => simp at hz
        | some z => rfl
    · have hl : pyStartsWith (pyUpper (pyStrip l)) "ACTION_TAG:" = false := by
        revert h
        unfold specIsTagLine
        intro h
        exact Bool.eq_false_iff.mpr h
      rw [tagScan, if_neg (by simp [hl]), ih, List.filter_cons_of_neg (by simp [h]),
        List.filter_cons_of_pos (by simp [specIsTagLine, hl]), List.append_assoc]
      rfl

/-- C6: both strategies parse generated text the same way: whenever the
summary step and the generation call succeed with raw text `raw`, the
returned response is the spec-side parse of `raw` — tag from any
`ACTION_TAG:` line regardless of position, remaining lines joined and
trimmed as content — with default tag `UNKNOWN` for the tutor and `NONE`
for the facilitator; and on the design document's example the parse gives
content "Here is a hint.\nTry again." and tag "HINT" under either default. -/
theorem agent_output_parsing :
    (∀ (client : LLMClient) (student_msg : Message) (casm : CASMState)
        (task_context casm_summary raw : String),
      summarise_casm_for_student casm student_msg.sender_id = .ok casm_summary →
      client.generate ptaSystemPrompt
        (ptaUserPrompt task_context casm_summary student_msg.content) = .ok raw →
      pta_step client student_msg casm task_context =
        .ok ⟨(specParse "UNKNOWN" raw).2, .pta, (specParse "UNKNOWN" raw).1⟩) ∧
    (∀ (client : LLMClient) (history : List Message) (casm : CASMState)
        (participant_ids : List String) (group_state raw : String),
      summarise_group_state casm participant_ids = .ok group_state →
      client.generate cgaSystemPrompt
        (cgaUserPrompt (String.intercalate "\n"
          ((history.drop (history.length - 15)).map convoLine)) group_state) = .ok raw →
      cga_step client history casm participant_ids =
        .ok ⟨(specParse "NONE" raw).2, .cga, (specParse "NONE" raw).1⟩) ∧
    specParse "UNKNOWN" "Here is a hint.\nACTION_TAG: hint\nTry again." =
      ("HINT", "Here is a hint.\nTry again.") ∧
    specParse "NONE" "Here is a hint.\nACTION_TAG: hint\nTry again." =
      ("HINT", "Here is a hint.\nTry again.") ∧
    specParse "UNKNOWN" "No tag here." = ("UNKNOWN", "No tag here.") ∧
    specParse "NONE" "No tag here." = ("NONE", "No tag here.") := by
  refine ⟨?_, ?_, by decide, by decide, by decide, by decide⟩
  · intro client student_msg casm task_context casm_summary raw hsum hgen
    simp only [pta_step, hsum, hgen, tagScan_eq_spec, List.nil_append, specParse]
  · intro client history casm participant_ids group_state raw hsum hgen
    simp only [cga_step, hsum, hgen, tagScan_eq_spec, List.nil_append, specParse]

/-- Witness for C6: the design document's example raw text, parsed through
both strategies with stub clients. -/
theorem agent_output_parsing_witness :
    pta_step ⟨fun _ _ => .ok "Here is a hint.\nACTION_TAG: hint\nTry again."⟩
        ⟨"s1", Role.student, "help", 0⟩ ⟨[], [], []⟩ "ctx" =
      .ok ⟨"Here is a hint.\nTry again.", AgentRole.pta, "HINT"⟩ ∧
    cga_step ⟨fun _ _ => .ok "Here is a hint.\nACTION_TAG: hint\nTry again."⟩
        [] ⟨[], [], []⟩ [] =
      .ok ⟨"Here is a hint.\nTry again.", AgentRole.cga, "HINT"⟩ :=
  ⟨agent_output_parsing.1 ⟨fun _ _ => .ok "Here is a hint.\nACTION_TAG: hint\nTry again."⟩
      ⟨"s1", Role.student, "help", 0⟩ ⟨[], [], []⟩ "ctx" _ _ rfl rfl,
    agent_output_parsing.2.1 ⟨fun _ _ => .ok "Here is a hint.\nACTION_TAG: hint\nTry again."⟩
      [] ⟨[], [], []⟩ [] _ _ rfl rfl⟩

/-! ## Claims about the group summary -/

/-- The loop of `summarise_group_state` produces exactly one line per
participant id, in the order given, each the line of that id. -/
theorem groupLines_ok (casm : CASMState) :
    ∀ (ids : List String) (lines : List String),
      groupLines casm ids = .ok lines →
      lines.length = ids.length ∧
      ∀ i (h1 : i < ids.length) (h2 : i < lines.length),
        groupLine casm (ids.get ⟨i, h1⟩) = .ok (lines.get ⟨i, h2⟩) := by
  intro ids
  induction ids with
  | nil =>
    intro lines h
    simp only [groupLines, Except.ok.injEq] at h
    subst h
    exact ⟨rfl, fun i h1 => absurd h1 (by simp)⟩
  | cons sid rest ih =>
    intro lines h
    unfold groupLines at h
    cases hgl : groupLine casm sid with
    | error e => rw [hgl] at h; exact Except.noConfusion h
    | ok line =>
      rw [hgl] at h
      cases hrest : groupLines casm rest with
      | error e => rw [hrest] at h; exact Except.noConfusion h
      | ok ls =>
        rw [hrest] at h
        simp only [Except.ok.injEq] at h
        subst h
        obtain ⟨hlen, hidx⟩ := ih ls hrest
        refine ⟨by simp [hlen], ?_⟩
        intro i h1 h2
        cases i with
        | zero => exact hgl
        | succ j =>
          exact hidx j (by simpa using h1) (by simpa using h2)

/-- C8: `summarise_group_state` is a pure function of the state and the
participant list: when it returns, the output is the newline-join of
exactly one line per participant id, in the exact order the ids were given,
each line determined by the state and that id alone (ids with no stored
profile read the default profile inside `groupLine`); being a Lean
function, it cannot modify the state, and equal inputs give equal output. -/
theorem summarise_group_state_lines (casm : CASMState)
    (participant_ids : List String) (out : String)
    (h : summarise_group_state casm participant_ids = .ok out) :
    ∃ lines : List String,
      out = String.intercalate "\n" lines ∧
      lines.length = participant_ids.length ∧
      ∀ i (h1 : i < participant_ids.length) (h2 : i < lines.length),
        groupLine casm (participant_ids.get ⟨i, h1⟩) = .ok (lines.get ⟨i, h2⟩) := by
  unfold summarise_group_state at h
  cases hgl : groupLines casm participant_ids with
  | error e => rw [hgl] at h; exact Except.noConfusion h
  | ok lines =>
    rw [hgl] at h
    simp only [Except.ok.injEq] at h
    subst h
    obtain ⟨hlen, hidx⟩ := groupLines_ok casm participant_ids lines hgl
    exact ⟨lines, rfl, hlen, hidx⟩

/-- Witness for C8: a group of two ids, the first with no stored profile
(default profile line), the second with a stored profile, in the exact
order given. -/
theorem summarise_group_state_lines_witness :
    ∃ lines : List String,
      ("s2: knowledge=medium, affect=neutral, talkativeness=medium, misconceptions=none\n" ++
        "s1: knowledge=high, affect=engaged, talkativeness=low, misconceptions=off-by-one") =
        String.intercalate "\n" lines ∧
      lines.length = (["s2", "s1"] : List String).length ∧
      ∀ i (h1 : i < (["s2", "s1"] : List String).length) (h2 : i < lines.length),
        groupLine ⟨[], [], [("s1", ⟨PyVal.str "high", PyVal.arr [PyVal.str "off-by-one"],
            PyVal.str "engaged", PyVal.str "low"⟩)]⟩
            ((["s2", "s1"] : List String).get ⟨i, h1⟩) =
          .ok (lines.get ⟨i, h2⟩) :=
  summarise_group_state_lines
    ⟨[], [], [("s1", ⟨PyVal.str "high", PyVal.arr [PyVal.str "off-by-one"],
      PyVal.str "engaged", PyVal.str "low"⟩)]⟩
    ["s2", "s1"] _ rfl
